import Mathlib

/-!
Verification of the aiida-basis catalog core against its specification.

The Python source is shallowly embedded: every definition below mirrors one
function or method of the repository (module and line references are given in
the doc comments).  Python dictionaries are modelled as association lists with
insertion-order semantics, Python sets as lists with membership-based
operations, exceptions as `Except`, and the persistence layer (an external
collaborator) as explicit state records.
-/

/-! ## Common helpers: Python dict and set semantics, substring search -/

/-- Python dict assignment `d[k] = v`: replaces the value in place if the key
exists (keeping its position), otherwise appends at the end. -/
def dictSet {α : Type} (d : List (String × α)) (k : String) (v : α) : List (String × α) :=
  match d with
  | [] => [(k, v)]
  | (k0, v0) :: rest => if k0 = k then (k0, v) :: rest else (k0, v0) :: dictSet rest k v

/-- Python dict built from a list of key-value pairs, first-insertion key order,
last assignment wins. -/
def pyDict {α : Type} (ps : List (String × α)) : List (String × α) :=
  ps.foldl (fun d p => dictSet d p.1 p.2) []

/-- Python dict lookup `d.get(k)` returning `None` when the key is absent. -/
def dictGet {α : Type} (d : List (String × α)) (k : String) : Option α :=
  (d.find? (fun p => p.1 = k)).map (fun p => p.2)

/-- Python dict `d1.update(d2)`. -/
def dictUpdate {α : Type} (d1 d2 : List (String × α)) : List (String × α) :=
  d2.foldl (fun d p => dictSet d p.1 p.2) d1

/-- Python set subset test `a <= b` for sets represented as duplicate-free lists. -/
def lsub (a b : List String) : Bool :=
  a.all (fun x => b.contains x)

/-- Python strict subset test `a < b`. -/
def lssub (a b : List String) : Bool :=
  lsub a b && !(lsub b a)

/-- Python symmetric difference `a ^ b` of two sets represented as lists. -/
def symmDiffL (a b : List String) : List String :=
  a.filter (fun x => !b.contains x) ++ b.filter (fun x => !a.contains x)

/-- Whether the character list `sub` occurs as a prefix of `cs`,
comparing characters exactly. -/
def leadsWith : List Char → List Char → Bool
  | [], _ => true
  | _ :: _, [] => false
  | a :: as, c :: cs => a = c && leadsWith as cs

/-- Whether `sub` occurs contiguously anywhere inside `cs`. -/
def listHasRun (sub : List Char) : List Char → Bool
  | [] => leadsWith sub []
  | c :: cs => leadsWith sub (c :: cs) || listHasRun sub cs

/-- Whether the string `sub` occurs as a contiguous substring of `s`;
used to formalise an error message "naming" a value. -/
def strContains (s sub : String) : Bool :=
  listHasRun sub.data s.data

/-! ## Python values

Orbital-configuration tuples arrive from JSON and may in principle hold
non-integer entries; `isinstance(n, int)` checks in the source are modelled
by the `PyVal.int` constructor test. -/

/-- A dynamically typed Python value as far as the validation code inspects it. -/
inductive PyVal where
  | int (n : Int)
  | other (tag : String)
  deriving DecidableEq, Repr

/-- The `isinstance(n, int)` test of the source. -/
def PyVal.isInt : PyVal → Bool
  | .int _ => true
  | .other _ => false

/-! ## Orbital configurations mixin

`aiida_basis/groups/mixins/orbital_configurations.py`,
class `RecommendedOrbitalConfigurationMixin`. -/

/-- An orbital-configuration table: Python dict element symbol to tuple. -/
abbrev OrbitalConfigs := List (String × List PyVal)

/-- Errors raised by `validate_orbital_configurations` (all `ValueError` in the
source; the constructor distinguishes the message template and carries the
data interpolated into the message). -/
inductive OCValidationError where
  | unsupportedElements (diff : List String)
  | missingElements (diff : List String)
  | invalidLength (element : String) (oc : List PyVal)
  | invalidValues (element : String) (oc : List PyVal)
  deriving DecidableEq, Repr

/-- The per-tuple loop of `validate_orbital_configurations`
(orbital_configurations.py lines 42-50): first tuple of length other than 4
raises, then first tuple with a non-`int` entry raises. -/
def validateTuples : OrbitalConfigs → Except OCValidationError Unit
  | [] => .ok ()
  | (element, oc) :: rest =>
    if oc.length ≠ 4 then .error (.invalidLength element oc)
    else if oc.any (fun n => !n.isInt) then .error (.invalidValues element oc)
    else validateTuples rest

/-- `RecommendedOrbitalConfigurationMixin.validate_orbital_configurations`
(orbital_configurations.py lines 21-50).  `elements` is `set(self.elements)`;
the dict keys form the second set; `elements_diff` is the symmetric
difference; the two comparisons are the Python strict-subset tests `<`
and `>`. -/
def validate_orbital_configurations (elements : List String) (ocs : OrbitalConfigs) :
    Except OCValidationError Unit :=
  let elementsFamily := elements
  let elementsOCs := ocs.map (fun p => p.1)
  let elementsDiff := symmDiffL elementsFamily elementsOCs
  if lssub elementsFamily elementsOCs then .error (.unsupportedElements elementsDiff)
  else if lssub elementsOCs elementsFamily then .error (.missingElements elementsDiff)
  else validateTuples ocs

/-- `RecommendedOrbitalConfigurationMixin.set_orbital_configurations`
(orbital_configurations.py lines 58-66): validate, then store the mapping in
the group extras under `_orbital_configurations`.  The stored extra is
returned (the group state is just this one extra here). -/
def set_orbital_configurations (elements : List String) (ocs : OrbitalConfigs) :
    Except OCValidationError OrbitalConfigs :=
  match validate_orbital_configurations elements ocs with
  | .error e => .error e
  | .ok _ => .ok ocs

/-! Scratch checks for the orbital mixin semantics. -/

example : validate_orbital_configurations ["H"] [("H", [.int 1, .int 0, .int 0, .int 0])] = .ok () := by
  rfl

example :
    validate_orbital_configurations ["H", "He"] [("H", [.int 1, .int 0, .int 0, .int 0])] =
      .error (.missingElements ["He"]) := by
  rfl

-- Incomparable sets slip through both strict-subset tests.
example :
    validate_orbital_configurations ["H"] [("He", [.int 1, .int 0, .int 0, .int 0])] = .ok () := by
  rfl

-- A negative integer entry is accepted.
example :
    validate_orbital_configurations ["H"] [("H", [.int (-1), .int 0, .int 0, .int 0])] = .ok () := by
  rfl

/-! ## Basis records and the element-indexed collection

`aiida_basis/groups/set/basis.py`, class `BasisSet`.  A stored basis data
node is reduced to the fields the collection code reads: its persisted
`element` and `md5` attributes and a store primary key. -/

/-- A persisted basis data node as seen by the collection layer. -/
structure BasisNode where
  pk : Nat
  element : String
  md5 : String
  deriving DecidableEq, Repr

/-- A stored `BasisSet` group: primary key, label, and its node membership in
store order. -/
structure StoredBasisSet where
  pk : Nat
  label : String
  nodes : List BasisNode
  deriving DecidableEq, Repr

/-- The `bases` cached dict of a basis set
(basis.py lines 253-261): Python dict comprehension over `self.nodes`,
so for a duplicated element the last node in store order wins. -/
def basesOf (bs : StoredBasisSet) : List (String × BasisNode) :=
  pyDict (bs.nodes.map (fun b => (b.element, b)))

/-- The `elements` property (basis.py lines 263-268): `list(self.bases.keys())`. -/
def elementsOf (bs : StoredBasisSet) : List String :=
  (basesOf bs).map (fun p => p.1)

/-- Errors raised by `get_basis` / `get_bases`: `ValueError` when the element
is absent, `RuntimeError` when the scoped store query returns more than one
node (basis.py lines 283-290). -/
inductive LookupError where
  | valueError (msg : String)
  | runtimeError (msg : String)
  deriving DecidableEq, Repr

/-- `BasisSet.get_basis` (basis.py lines 270-294): serve from the cached dict;
on a cache miss run a `QueryBuilder` scoped to this group and element, raising
`ValueError` when no node matches and `RuntimeError` on more than one. -/
def get_basis (bs : StoredBasisSet) (element : String) : Except LookupError BasisNode :=
  match dictGet (basesOf bs) element with
  | some basis => .ok basis
  | none =>
    match bs.nodes.filter (fun b => b.element = element) with
    | [basis] => .ok basis
    | [] =>
      .error (.valueError
        ("basis set `" ++ bs.label ++ "` does not contain basis for element `" ++ element ++ "`"))
    | _ =>
      .error (.runtimeError
        ("basis set `" ++ bs.label ++ "` contains multiple bases for `" ++ element ++ "`"))

/-- `BasisSet.get_bases` with the `elements` keyword (basis.py line 323): a
dict comprehension `{element: self.get_basis(element) for element in elements}`,
so the first failing `get_basis` call propagates and later elements are never
looked up. -/
def get_bases (bs : StoredBasisSet) (elements : List String) :
    Except LookupError (List (String × BasisNode)) :=
  match elements with
  | [] => .ok []
  | e :: rest =>
    match get_basis bs e with
    | .error err => .error err
    | .ok basis =>
      match get_bases bs rest with
      | .error err => .error err
      | .ok m => .ok ((e, basis) :: m)

/-! ### Live instance state and `add_nodes`

`add_nodes` mutates an in-memory instance whose `_bases` cache may or may not
be built; `super().add_nodes` extends the persisted group membership. -/

/-- The in-memory state of a `BasisSet` instance:
`is_stored`, the persisted group membership `self.nodes`, and the `_bases`
cache (`none` when the cache has not been built). -/
structure BasisSetInstance where
  is_stored : Bool
  label : String
  groupNodes : List BasisNode
  basesCache : Option (List (String × BasisNode))
  deriving DecidableEq, Repr

/-- The `bases` property on an instance: the cache when built, otherwise the
dict comprehension over the persisted nodes (basis.py lines 253-261). -/
def instanceBases (s : BasisSetInstance) : List (String × BasisNode) :=
  match s.basesCache with
  | some d => d
  | none => pyDict (s.groupNodes.map (fun b => (b.element, b)))

/-- The `elements` property on an instance. -/
def instanceElements (s : BasisSetInstance) : List String :=
  (instanceBases s).map (fun p => p.1)

/-- Errors raised by `add_nodes`: `ModificationNotAllowed` when the group is
unstored, `ValueError` when an element is already present.  The `TypeError`
branch for foreign node types cannot fire in this embedding because every
node is a `BasisNode`. -/
inductive AddError where
  | modificationNotAllowed (msg : String)
  | valueError (msg : String)
  deriving DecidableEq, Repr

/-- The duplicate-check loop of `add_nodes` (basis.py lines 221-227): for each
node, raise if its element is in `self.elements`, else record it in the local
`bases` dict.  `elements` is evaluated against the UNCHANGED instance state
throughout the loop. -/
def addCheckLoop (elements : List String) (acc : List (String × BasisNode)) :
    List BasisNode → Except AddError (List (String × BasisNode))
  | [] => .ok acc
  | basis :: rest =>
    if elements.contains basis.element then
      .error (.valueError ("element `" ++ basis.element ++ "` already present in this basis set"))
    else addCheckLoop elements (dictSet acc basis.element basis) rest

/-- `BasisSet.add_nodes` (basis.py lines 203-232): require the group stored,
run the duplicate-check loop against the current `elements`, then update the
cached dict and delegate to `super().add_nodes`, which extends the persisted
group membership with all the argument nodes. -/
def add_nodes (s : BasisSetInstance) (nodes : List BasisNode) :
    Except AddError BasisSetInstance :=
  if !s.is_stored then
    .error (.modificationNotAllowed "cannot add nodes to an unstored group")
  else
    match addCheckLoop (instanceElements s) [] nodes with
    | .error e => .error e
    | .ok bases =>
      .ok { s with
            basesCache := some (dictUpdate (instanceBases s) bases)
            groupNodes := s.groupNodes ++ nodes }

/-! Scratch checks for the collection semantics. -/

example :
    add_nodes ⟨true, "set", [⟨1, "H", "aaaa"⟩], none⟩ [⟨2, "H", "bbbb"⟩] =
      .error (.valueError "element `H` already present in this basis set") := by
  rfl

-- Two fresh nodes with the same element slip through the duplicate check and
-- are both attached to the group.
example :
    (add_nodes ⟨true, "set", [], none⟩ [⟨1, "H", "aaaa"⟩, ⟨2, "H", "cccc"⟩]).map
        (fun s => s.groupNodes.map (fun b => b.element)) =
      .ok ["H", "H"] := by
  rfl

/-! ## OpenMX configurations and bundled metadata

`aiida_basis/groups/set/openmx.py`, class `OpenmxBasisSet`. -/

/-- `OpenmxConfiguration` namedtuple (openmx.py line 16). -/
structure OpenmxConfiguration where
  version : String
  protocol : String
  hardness : String
  deriving DecidableEq, Repr

/-- `OpenmxBasisSet.valid_configurations` (openmx.py lines 32-37). -/
def valid_configurations : List OpenmxConfiguration :=
  [⟨"19", "quick", "soft"⟩, ⟨"19", "quick", "hard"⟩,
   ⟨"19", "standard", "soft"⟩, ⟨"19", "standard", "hard"⟩,
   ⟨"19", "precise", "soft"⟩, ⟨"19", "precise", "hard"⟩]

/-- `OpenmxBasisSet.format_configuration_label` (openmx.py lines 51-60),
instantiating the template `OpenMX/{version}/{protocol}/{hardness}`. -/
def format_configuration_label (c : OpenmxConfiguration) : String :=
  "OpenMX/" ++ c.version ++ "/" ++ c.protocol ++ "/" ++ c.hardness

/-- The bundled metadata filename `{version}_{protocol}_{hardness}.json`
(openmx.py line 69). -/
def metadataFilename (c : OpenmxConfiguration) : String :=
  c.version ++ "_" ++ c.protocol ++ "_" ++ c.hardness ++ ".json"

/-- One per-element entry of a configuration metadata descriptor:
`filename`, `md5`, `orbital_configuration`, and the optional `hardness` and
`open_core` flags. -/
structure ElementMetadata where
  filename : String
  md5 : String
  orbital_configuration : List PyVal
  hardness : Option String
  open_core : Option Bool
  deriving DecidableEq, Repr

/-- A configuration metadata descriptor: JSON object keyed by element symbol. -/
abbrev ConfigurationMetadata := List (String × ElementMetadata)

/-- The state of one bundled descriptor file as the loading code can observe
it: missing, unreadable (the `open`/read raises `OSError`), present but not
valid JSON, or present with parsed content. -/
inductive FileState where
  | absent
  | unreadable
  | corrupt
  | good (metadata : ConfigurationMetadata)
  deriving Repr

/-- Errors escaping `get_configuration_metadata`: the re-raised
`FileNotFoundError`, the re-raised `OSError`, and the `json.JSONDecodeError`
raised by `json.load` on corrupt content.  The decode error is a `ValueError`
subclass in Python, so the `except OSError` clause does NOT catch it and it
propagates unwrapped. -/
inductive MetadataError where
  | fileNotFoundError (msg : String)
  | osError (msg : String)
  | jsonDecodeError
  deriving DecidableEq, Repr

/-- Whether a `MetadataError` is the wrapped `OSError` (the distinct IoError
of the specification). -/
def MetadataError.isIoError : MetadataError → Bool
  | .osError _ => true
  | _ => false

/-- `OpenmxBasisSet.get_configuration_metadata` (openmx.py lines 72-92):
open the bundled descriptor keyed `version_protocol_hardness` and parse it,
re-raising `FileNotFoundError` and `OSError` with configuration-specific
messages; a JSON decode failure on corrupt content is caught by neither
clause. -/
def get_configuration_metadata (fs : String → FileState) (c : OpenmxConfiguration) :
    Except MetadataError ConfigurationMetadata :=
  match fs (metadataFilename c) with
  | .absent =>
    .error (.fileNotFoundError
      ("Metadata JSON for " ++ format_configuration_label c ++ " could not be found"))
  | .unreadable =>
    .error (.osError
      ("Error while opening the metadata file for " ++ format_configuration_label c))
  | .corrupt => .error .jsonDecodeError
  | .good metadata => .ok metadata

/-! ## Download URL derivation

`aiida_basis/cli/install.py`, function `download_openmx` (lines 23-66). -/

/-- `url_base` (install.py line 37). -/
def url_base : String := "https://t-ozaki.issp.u-tokyo.ac.jp/"

/-- `url_version` (install.py lines 38-41). -/
def url_version : List (String × String) :=
  [("19", "vps_pao2019/"), ("13", "vps_pao2013/")]

/-- The URL five-way branch of `download_openmx` (install.py lines 50-59).
`none` models the `KeyError` of `url_version[configuration.version]` for a
version outside the dict. -/
def download_url (version element : String) (em : ElementMetadata) : Option String :=
  match dictGet url_version version with
  | none => none
  | some uv =>
    if em.hardness = some "hard" then
      some (url_base ++ "/" ++ uv ++ "/" ++ element ++ "/" ++ element ++ "_Hard/" ++ em.filename)
    else if em.hardness = some "soft" then
      some (url_base ++ "/" ++ uv ++ "/" ++ element ++ "/" ++ element ++ "_Soft/" ++ em.filename)
    else if em.open_core = some true then
      some (url_base ++ "/" ++ uv ++ "/" ++ element ++ "/" ++ element ++ "_OC/" ++ em.filename)
    else if em.open_core = some false then
      some (url_base ++ "/" ++ uv ++ "/" ++ element ++ "/" ++ element ++ "/" ++ em.filename)
    else
      some (url_base ++ "/" ++ uv ++ "/" ++ element ++ "/" ++ em.filename)

/-! ## The persisted store and the post-materialization verify loop

The workflow-engine store is an external collaborator offering create,
query-by-attribute and delete; it is modelled as the explicit record `Db`.
`Group.objects.delete(pk)` deletes the group entity with that primary key;
the basis data nodes live in their own table and are not touched by it. -/

/-- The persisted store: basis set groups and basis data nodes. -/
structure Db where
  groups : List StoredBasisSet
  basisNodes : List BasisNode
  deriving DecidableEq, Repr

/-- `Group.objects.delete(pk)` (install.py line 153): remove the group with
the given primary key; nodes are unaffected. -/
def groupDelete (db : Db) (pk : Nat) : Db :=
  ⟨db.groups.filter (fun g => g.pk ≠ pk), db.basisNodes⟩

/-- Failures of the verify loop: the `echo_critical` md5-mismatch abort, or an
exception escaping `basis_set.get_basis` (which the source does not catch and
which does not delete anything). -/
inductive VerifyError where
  | mdMismatch (msg : String)
  | lookupFailure (e : LookupError)
  deriving DecidableEq, Repr

/-- The verification loop of `cmd_install_openmx` (install.py lines 149-157):
for each element of the metadata in order, compare the md5 of the basis in
the just-created set against the metadata md5; on the first mismatch delete
the group and abort with the message naming the element and the metadata md5;
otherwise collect the per-element `orbital_configuration` entries. -/
def verify_loop (db : Db) (bs : StoredBasisSet) :
    ConfigurationMetadata → Db × Except VerifyError OrbitalConfigs
  | [] => (db, .ok [])
  | (element, values) :: rest =>
    match get_basis bs element with
    | .error e => (db, .error (.lookupFailure e))
    | .ok basis =>
      if basis.md5 ≠ values.md5 then
        (groupDelete db bs.pk,
         .error (.mdMismatch
           ("md5 of PAO for element " ++ element ++
            " does not match that of the metadata " ++ values.md5)))
      else
        match verify_loop db bs rest with
        | (db2, .ok ocs) => (db2, .ok ((element, values.orbital_configuration) :: ocs))
        | (db2, .error e) => (db2, .error e)

/-! Scratch checks for metadata loading and verification. -/

example :
    get_configuration_metadata (fun _ => .corrupt) ⟨"19", "standard", "soft"⟩ =
      .error .jsonDecodeError := by
  rfl

example :
    verify_loop ⟨[⟨7, "OpenMX/19/standard/soft", [⟨3, "H", "aaaa"⟩]⟩], [⟨3, "H", "aaaa"⟩]⟩
        ⟨7, "OpenMX/19/standard/soft", [⟨3, "H", "aaaa"⟩]⟩ [("H", ⟨"H.pao", "bbbb", [], none, none⟩)] =
      (⟨[], [⟨3, "H", "aaaa"⟩]⟩,
       .error (.mdMismatch "md5 of PAO for element H does not match that of the metadata bbbb")) := by
  rfl

/-! ## The install command with its observable effects

`cmd_install_openmx` (install.py lines 117-162) is embedded as a function
that, besides its result, returns the list of external effects it performed
in order: bundled-metadata file accesses, store queries, network requests and
group persistence. -/

/-- An observable external effect of the install pipeline. -/
inductive Event where
  | metadataLoad (filename : String)
  | labelQuery (label : String)
  | networkFetch (url : String)
  | groupStore (label : String)
  deriving DecidableEq, Repr

/-- The environment of the install command: the bundled descriptor files, the
network, and the creation pipeline `create_basis_set_from_directory`
(cli/utils.py), whose persistence side is abstracted into one store-and-return
step here; its parsing core is embedded separately as
`parse_bases_from_directory` below. -/
structure InstallEnv where
  fs : String → FileState
  network : String → Option String
  createFromDirectory : String → List (String × String) → Db → Except String (Db × StoredBasisSet)

/-- `get_configuration_metadata` together with its file access: the source
function unconditionally opens the descriptor filepath, so the access is
performed for every configuration, valid or not. -/
def get_configuration_metadata_traced (fs : String → FileState) (c : OpenmxConfiguration) :
    List Event × Except MetadataError ConfigurationMetadata :=
  ([.metadataLoad (metadataFilename c)], get_configuration_metadata fs c)

/-- The sequential fetch loop of `download_openmx` (install.py lines 46-66):
one request per element in metadata order; a failed request aborts the
download.  The fetched content is written to the temporary directory under
the metadata filename. -/
def fetchFiles (network : String → Option String) (version : String) :
    ConfigurationMetadata → List Event × Except String (List (String × String))
  | [] => ([], .ok [])
  | (element, em) :: rest =>
    match download_url version element em with
    | none => ([], .error ("KeyError: " ++ version))
    | some url =>
      match network url with
      | none => ([.networkFetch url], .error ("downloading failed for " ++ url))
      | some content =>
        match fetchFiles network version rest with
        | (evs, .ok files) => (.networkFetch url :: evs, .ok ((em.filename, content) :: files))
        | (evs, .error e) => (.networkFetch url :: evs, .error e)

/-- `download_openmx` (install.py lines 23-66): load the configuration
metadata (a second, independent load when called from the install command),
then fetch the file of every element. -/
def download_openmx (env : InstallEnv) (c : OpenmxConfiguration) :
    List Event × Except String (List (String × String)) :=
  match get_configuration_metadata env.fs c with
  | .error e =>
    ([.metadataLoad (metadataFilename c)], .error ("metadata load failed: " ++ toString (repr e)))
  | .ok metadata =>
    match fetchFiles env.network c.version metadata with
    | (evs, r) => (.metadataLoad (metadataFilename c) :: evs, r)

/-- The outcome of `cmd_install_openmx`: the `echo_critical` aborts and the
exceptions escaping the command each get a constructor, and success carries
the label, the basis count of the success message, and the stored
orbital-configuration extra. -/
inductive InstallResult where
  | invalidConfiguration (msg : String)
  | metadataFailure (e : MetadataError)
  | alreadyInstalled (msg : String)
  | downloadFailure (msg : String)
  | parseFailure (msg : String)
  | lookupFailure (e : LookupError)
  | integrityFailure (msg : String)
  | validationFailure (e : OCValidationError)
  | success (label : String) (count : Nat) (ocs : OrbitalConfigs)
  deriving Repr

/-- `cmd_install_openmx` (install.py lines 117-162): build the configuration
from the options, reject it before any other work if it is not in
`valid_configurations`, then load the metadata, query the store for an
existing label, download the files, create the basis set, run the verify
loop, and store the orbital configurations. -/
def cmd_install_openmx (env : InstallEnv) (db : Db) (version protocol hardness : String) :
    Db × List Event × InstallResult :=
  let config : OpenmxConfiguration := ⟨version, protocol, hardness⟩
  if !(valid_configurations.contains config) then
    (db, [],
     .invalidConfiguration
       (version ++ " " ++ hardness ++ " " ++ protocol ++
        " is not a valid OpenMX basis set configuration"))
  else
    let label := format_configuration_label config
    match get_configuration_metadata env.fs config with
    | .error e => (db, [.metadataLoad (metadataFilename config)], .metadataFailure e)
    | .ok metadata =>
      if db.groups.any (fun g => g.label = label) then
        (db, [.metadataLoad (metadataFilename config), .labelQuery label],
         .alreadyInstalled ("OpenmxBasisSet<" ++ label ++ "> is already installed"))
      else
        match download_openmx env config with
        | (devs, .error e) =>
          (db, .metadataLoad (metadataFilename config) :: .labelQuery label :: devs,
           .downloadFailure e)
        | (devs, .ok files) =>
          let evs := .metadataLoad (metadataFilename config) :: .labelQuery label :: devs
          match env.createFromDirectory label files db with
          | .error e => (db, evs, .parseFailure e)
          | .ok (db2, basis_set) =>
            let evs := evs ++ [.groupStore label]
            match verify_loop db2 basis_set metadata with
            | (db3, .error (.mdMismatch msg)) => (db3, evs, .integrityFailure msg)
            | (db3, .error (.lookupFailure e)) => (db3, evs, .lookupFailure e)
            | (db3, .ok ocs) =>
              match set_orbital_configurations (elementsOf basis_set) ocs with
              | .error e => (db3, evs, .validationFailure e)
              | .ok _ => (db3, evs, .success label basis_set.nodes.length ocs)

/-! ## Directory validation and the parse-from-directory pipeline

`BasisSet._validate_dirpath` (basis.py lines 71-84) and
`BasisSet.parse_bases_from_directory` (basis.py lines 86-146). -/

/-- A directory entry: a regular file with its content, or a subdirectory. -/
inductive DirEntry where
  | file (name : String) (content : String)
  | subdir (name : String) (entries : List DirEntry)

/-- `os.path.isfile` on an entry. -/
def DirEntry.isFile : DirEntry → Bool
  | .file _ _ => true
  | .subdir _ _ => false

/-- `BasisSet._validate_dirpath` (basis.py lines 71-84): when the directory
holds exactly one entry and that entry is a directory, descend into it;
otherwise keep the directory as is.  The descent is applied once, not
recursively. -/
def validate_dirpath (contents : List DirEntry) : List DirEntry :=
  match contents with
  | [DirEntry.subdir _ entries] => entries
  | _ => contents

/-- A parsed basis as far as the directory pipeline inspects it: the element
the constructor produced, if any. -/
structure ParsedBasis where
  element : Option String
  deriving DecidableEq, Repr

/-- `re.search(r'^([A-Za-z]{1,2})\.\w+', filename)` (basis.py line 128),
with the regex backtracking from the greedy two-letter attempt to one letter. -/
def filenameElement (filename : String) : Option String :=
  match filename.data with
  | [] => none
  | c1 :: rest1 =>
    if !c1.isAlpha then none
    else
      match rest1 with
      | [] => none
      | c2 :: rest2 =>
        if c2.isAlpha then
          match rest2 with
          | '.' :: c3 :: _ =>
            if c3.isAlpha || c3.isDigit || c3 = '_' then some (String.mk [c1, c2]) else none
          | _ => none
        else if c2 = '.' then
          match rest2 with
          | c3 :: _ =>
            if c3.isAlpha || c3.isDigit || c3 = '_' then some (String.mk [c1]) else none
          | [] => none
        else none

/-- Errors of the directory pipeline: `ValueError` for shape and set
violations, `ParsingError` from the basis constructor or the element
fallback. -/
inductive DirParseError where
  | valueError (msg : String)
  | parsingError (msg : String)
  deriving DecidableEq, Repr

/-- The per-file loop of `parse_bases_from_directory` (basis.py lines
112-136): each entry must be a file; the file is handed to the basis
constructor (`basis_type.get_or_create` with deduplication, `basis_type`
otherwise — supplied here as `construct`); a constructor that yields no
element falls back to the `ELEMENT.EXTENSION` filename pattern. -/
def parseFilesLoop (construct : String → String → Except String ParsedBasis) :
    List DirEntry → Except DirParseError (List ParsedBasis)
  | [] => .ok []
  | DirEntry.subdir _ _ :: _ =>
    .error (.valueError "dirpath contains at least one entry that is not a file")
  | DirEntry.file name content :: rest =>
    match construct name content with
    | .error e => .error (.parsingError ("failed to parse `" ++ name ++ "`: " ++ e))
    | .ok basis =>
      match basis.element with
      | some _ =>
        match parseFilesLoop construct rest with
        | .error e => .error e
        | .ok bases => .ok (basis :: bases)
      | none =>
        match filenameElement name with
        | none =>
          .error (.parsingError
            "constructor did not define the element and could not parse a valid element symbol from the filename either")
        | some el =>
          match parseFilesLoop construct rest with
          | .error e => .error e
          | .ok bases => .ok ({ element := some el } :: bases)

/-- The post-loop checks of `parse_bases_from_directory` (basis.py lines
138-146): reject an empty result and reject duplicate elements by comparing
the list length against the element-set size. -/
def parse_files (construct : String → String → Except String ParsedBasis)
    (contents : List DirEntry) : Except DirParseError (List ParsedBasis) :=
  match parseFilesLoop construct contents with
  | .error e => .error e
  | .ok bases =>
    if bases.isEmpty then .error (.valueError "no bases were parsed")
    else if bases.length ≠ (bases.filterMap (fun b => b.element)).dedup.length then
      .error (.valueError "directory contains bases with duplicate elements")
    else .ok bases

/-- `BasisSet.parse_bases_from_directory` (basis.py lines 86-146):
`_validate_dirpath`, then the file loop and its checks. -/
def parse_bases_from_directory (construct : String → String → Except String ParsedBasis)
    (contents : List DirEntry) : Except DirParseError (List ParsedBasis) :=
  parse_files construct (validate_dirpath contents)

/-! Scratch checks for the directory pipeline. -/

example :
    parse_bases_from_directory (fun _ _ => .ok ⟨none⟩)
        [.subdir "pao" [.file "Ar.pao" "x", .file "He.pao" "y"]] =
      .ok [⟨some "Ar"⟩, ⟨some "He"⟩] := by
  rfl

example :
    parse_bases_from_directory (fun _ _ => .ok ⟨none⟩)
        [.file "Ar.pao" "x", .subdir "sub" []] =
      .error (.valueError "dirpath contains at least one entry that is not a file") := by
  rfl

example :
    parse_bases_from_directory (fun _ _ => .ok ⟨none⟩)
        [.subdir "a" [], .subdir "b" []] =
      .error (.valueError "dirpath contains at least one entry that is not a file") := by
  rfl

example :
    parse_bases_from_directory (fun _ content => .ok ⟨some content⟩)
        [.file "Ar.pao" "Ar", .file "Ar2.pao" "Ar"] =
      .error (.valueError "directory contains bases with duplicate elements") := by
  rfl

/-! ## The PAO descriptor parser

`aiida_basis/data/basis/pao.py`.  The module-level regular expressions are
embedded as scanners: each pattern is a case-insensitive literal keyword
followed by optional whitespace and a number, and `re.search` is modelled by
trying the keyword match at every position from the left. -/

/-- ASCII whitespace as matched by the regex class backslash-s. -/
def isPySpace (c : Char) : Bool :=
  c = ' ' || c = '\t' || c = '\n' || c = '\x0d' || c = '\x0b' || c = '\x0c'

/-- Case-insensitive literal match of `kw` at the head of the input, returning
the remainder.  Dots in the keywords are escaped in the source patterns and
match only a literal dot. -/
def matchCI : List Char → List Char → Option (List Char)
  | [], cs => some cs
  | _ :: _, [] => none
  | k :: ks, c :: cs => if k.toLower = c.toLower then matchCI ks cs else none

/-- The numeric value of a digit run. -/
def digitsToNat (ds : List Char) : Nat :=
  ds.foldl (fun n c => 10 * n + (c.toNat - 48)) 0

/-- `re.search`: try the position matcher at every suffix, leftmost success
wins. -/
def searchBy {α : Type} (matchAt : List Char → Option α) : List Char → Option α
  | [] => matchAt []
  | c :: rest =>
    match matchAt (c :: rest) with
    | some v => some v
    | none => searchBy matchAt rest

/-- Whitespace then a nonempty digit run, as in the integer-field patterns. -/
def digitsAfter (r : List Char) : Option Nat :=
  let ds := (r.dropWhile isPySpace).takeWhile Char.isDigit
  if ds.isEmpty then none else some (digitsToNat ds)

/-- Position matcher for an integer field pattern `kw\s*(\d+)`. -/
def intFieldAt (kw : List Char) (cs : List Char) : Option Nat :=
  match matchCI kw cs with
  | none => none
  | some r => digitsAfter r

/-- Position matcher for `AtomSpecies\s*(\d{1,3})`: the greedy bounded group
takes at most three digits. -/
def atomicNumberAt (cs : List Char) : Option Nat :=
  match matchCI "atomspecies".data cs with
  | none => none
  | some r =>
    let ds := (((r.dropWhile isPySpace).takeWhile Char.isDigit).take 3)
    if ds.isEmpty then none else some (digitsToNat ds)

/-- The suffix `upied.N\s*(\d+)` of the max-occupied-N pattern. -/
def occTail (r : List Char) : Option Nat :=
  match matchCI "upied.n".data r with
  | none => none
  | some r2 => digitsAfter r2

/-- Position matcher for `max\.o[c]{1,2}upied\.N\s*(\d+)` with the greedy
one-or-two `c` group and its backtracking. -/
def maxOccNAt (cs : List Char) : Option Nat :=
  match matchCI "max.o".data cs with
  | none => none
  | some r =>
    match r with
    | [] => none
    | c :: rest =>
      if c.toLower = 'c' then
        match rest with
        | c2 :: rest2 =>
          if c2.toLower = 'c' then
            match occTail rest2 with
            | some v => some v
            | none => occTail rest
          else occTail rest
        | [] => occTail rest
      else none

/-- Sign prefix `[+-]?` of the float pattern; `true` means negative. -/
def scanSign : List Char → Bool × List Char
  | '+' :: r => (false, r)
  | '-' :: r => (true, r)
  | cs => (false, cs)

/-- The optional exponent `([eE][+-]?\d+)?`: when the digits after `e` are
missing the group matches empty, leaving the exponent at zero. -/
def scanExp (cs : List Char) : Int :=
  match cs with
  | 'e' :: r =>
    match scanSign r with
    | (neg, r2) =>
      let ds := r2.takeWhile Char.isDigit
      if ds.isEmpty then 0
      else if neg then -(digitsToNat ds : Int) else (digitsToNat ds : Int)
  | 'E' :: r =>
    match scanSign r with
    | (neg, r2) =>
      let ds := r2.takeWhile Char.isDigit
      if ds.isEmpty then 0
      else if neg then -(digitsToNat ds : Int) else (digitsToNat ds : Int)
  | _ => 0

/-- An exact decimal number `num / 10^shift`, the value a float numeral of the
basis-file grammar denotes.  The Python value is the nearest binary float; the
numerals of this development are compared only for integrality, sign and
identity, where the decimal and the float agree. -/
structure Dec10 where
  num : Int
  shift : Nat
  deriving DecidableEq, Repr

/-- Decimal scaling by a signed power of ten, for the exponent part. -/
def applyExp (d : Dec10) (e : Int) : Dec10 :=
  if e ≥ 0 then ⟨d.num * (10 : Int) ^ e.toNat, d.shift⟩ else ⟨d.num, d.shift + (-e).toNat⟩

/-- Whether the decimal equals an integer (the Python test `int(z) == z`). -/
def Dec10.isIntegral (d : Dec10) : Bool :=
  d.num % (10 : Int) ^ d.shift = 0

/-- Python `int()` truncation toward zero; only applied after the
integrality test, where the division is exact. -/
def Dec10.toInt (d : Dec10) : Int :=
  d.num / (10 : Int) ^ d.shift

/-- Whether the decimal is a positive number (the `value <= 0` test of the
`r_cutoff` setter negated). -/
def Dec10.isPos (d : Dec10) : Bool :=
  0 < d.num

/-- The float pattern `[+-]?(\d+(\.\d*)?|\.\d+)([eE][+-]?\d+)?` at a position,
with the numeral read exactly as a decimal. -/
def scanFloat (cs : List Char) : Option Dec10 :=
  match scanSign cs with
  | (neg, r) =>
    match r with
    | [] => none
    | c :: t =>
      if c.isDigit then
        let ds1 := r.takeWhile Char.isDigit
        let r1 := r.dropWhile Char.isDigit
        let fr :=
          match r1 with
          | '.' :: t1 => (t1.takeWhile Char.isDigit, t1.dropWhile Char.isDigit)
          | _ => ([], r1)
        let mant : Int := (digitsToNat ds1 : Int) * (10 : Int) ^ fr.1.length + (digitsToNat fr.1 : Int)
        let d := applyExp ⟨mant, fr.1.length⟩ (scanExp fr.2)
        some (if neg then ⟨-d.num, d.shift⟩ else d)
      else if c = '.' then
        let ds2 := t.takeWhile Char.isDigit
        if ds2.isEmpty then none
        else
          let r2 := t.dropWhile Char.isDigit
          let d := applyExp ⟨(digitsToNat ds2 : Int), ds2.length⟩ (scanExp r2)
          some (if neg then ⟨-d.num, d.shift⟩ else d)
      else none

/-- Position matcher for a float field pattern `kw\s*(FLOAT)`. -/
def floatFieldAt (kw : List Char) (cs : List Char) : Option Dec10 :=
  match matchCI kw cs with
  | none => none
  | some r => scanFloat (r.dropWhile isPySpace)

/-- Modelled from the spec: the periodic table
`aiida.common.constants.elements` (an external dependency of the repository),
mapping atomic number to IUPAC symbol; the spec calls this the
periodic-table lookup.  The leading entries suffice for this development. -/
def elementsTable : List (Nat × String) :=
  [(1, "H"), (2, "He"), (3, "Li"), (4, "Be"), (5, "B"), (6, "C"), (7, "N"), (8, "O"),
   (9, "F"), (10, "Ne"), (11, "Na"), (12, "Mg"), (13, "Al"), (14, "Si"), (15, "P"),
   (16, "S"), (17, "Cl"), (18, "Ar"), (19, "K"), (20, "Ca")]

/-- `parse_element` (pao.py lines 22-49).  The `int()` conversion of the
matched group cannot fail on a digits-only group, so that `ValueError` branch
is unreachable; an atomic number outside the table fails distinctly. -/
def parse_element (content : String) : Except String String :=
  match searchBy atomicNumberAt content.data with
  | some n =>
    match elementsTable.find? (fun p => p.1 = n) with
    | some p => .ok p.2
    | none =>
      .error ("parsed value for the atomic number `" ++ toString n ++
        "` is not in aiida.common.constants.elements.")
  | none => .error ("could not parse the element from the PAO content: " ++ content)

/-- `parse_z_valence` (pao.py lines 52-73): textually a float, must equal an
integer value. -/
def parse_z_valence (content : String) : Except String Int :=
  match searchBy (floatFieldAt "valence.electron".data) content.data with
  | some d =>
    if !d.isIntegral then
      .error "parsed value for the Z valence is not an integer"
    else .ok d.toInt
  | none => .error ("could not parse the Z valence from the PAO content: " ++ content)

/-- `parse_r_cutoff` (pao.py lines 76-94). -/
def parse_r_cutoff (content : String) : Except String Dec10 :=
  match searchBy (floatFieldAt "radial.cutoff.pao".data) content.data with
  | some d => .ok d
  | none => .error ("could not parse the radial cutoff from the PAO content: " ++ content)

/-- `parse_max_occ_n` (pao.py lines 97-117). -/
def parse_max_occ_n (content : String) : Except String Int :=
  match searchBy maxOccNAt content.data with
  | some n => .ok (n : Int)
  | none => .error ("could not parse the maximum occupied `n` from the PAO content: " ++ content)

/-- `parse_max_l` (pao.py lines 120-138). -/
def parse_max_l (content : String) : Except String Int :=
  match searchBy (intFieldAt "maxl.pao".data) content.data with
  | some n => .ok (n : Int)
  | none => .error ("could not parse the maximum `l` from the PAO content: " ++ content)

/-- `parse_num_pao` (pao.py lines 141-159). -/
def parse_num_pao (content : String) : Except String Int :=
  match searchBy (intFieldAt "num.pao".data) content.data with
  | some n => .ok (n : Int)
  | none => .error ("could not parse the number of PAOs from the PAO content: " ++ content)

/-! Scratch checks against the descriptor grammar of the spec and the
source test cases. -/

example : parse_z_valence "valence.electron 8.0" = .ok 8 := by rfl
example : parse_z_valence "Valence.Electron  8.000" = .ok 8 := by rfl
example : parse_z_valence "valence.electron 8.0e1" = .ok 80 := by rfl
example : parse_z_valence "valence.electron 8.5" =
    .error "parsed value for the Z valence is not an integer" := by rfl
example : parse_element "AtomSpecies 18" = .ok "Ar" := by rfl
example : parse_max_occ_n "max.occupied.N 3" = .ok 3 := by rfl
example : parse_max_occ_n "max.ocupied.N 4" = .ok 4 := by rfl
example : parse_max_l "maxL.pao 2" = .ok 2 := by rfl
example : parse_num_pao "num.pao 15" = .ok 15 := by rfl

/-! ## The PaoData record

`aiida_basis/data/basis/pao.py`, class `PaoData` (lines 162-291).  A node
carries the attributes persisted through `set_attribute` and, separately, any
plain Python instance attributes, which are NOT part of the persisted record. -/

/-- A persisted attribute value. -/
inductive AttrVal where
  | str (s : String)
  | int (n : Int)
  | dec (d : Dec10)
  deriving DecidableEq, Repr

/-- The in-memory state of a `PaoData` node: the persisted attributes and the
plain instance attribute `max_l` that line 189 of pao.py creates (there is no
property named `max_l` on the class, so the assignment bypasses
`set_attribute`). -/
structure PaoData where
  attributes : List (String × AttrVal)
  max_l_obj : Option Int
  deriving DecidableEq, Repr

/-- `set_attribute` on a node. -/
def setAttr (node : PaoData) (k : String) (v : AttrVal) : PaoData :=
  { node with attributes := dictSet node.attributes k v }

/-- `get_attribute(key, None)` on a node. -/
def getAttr (node : PaoData) (k : String) : Option AttrVal :=
  dictGet node.attributes k

/-- Class attribute `_key_z_valence` (pao.py line 165). -/
def _key_z_valence : String := "z_valence"

/-- Class attribute `_key_r_cutoff` (pao.py line 167). -/
def _key_r_cutoff : String := "r_cutoff"

/-- Class attribute `_key_max_occ_n` (pao.py line 168). -/
def _key_max_occ_n : String := "max_occ_n"

/-- Class attribute `_key_max_l` (pao.py line 169); defined on the class but
referenced by neither property nor `set_file`. -/
def _key_max_l : String := "max_l"

/-- Class attribute `_key_num_pao` (pao.py line 170). -/
def _key_num_pao : String := "num_pao"

/-- The name `_key_key_max_l` that both `key_max_l` accessors read
(pao.py lines 258 and 270): it is defined nowhere on the class, so the
attribute lookup raises `AttributeError`; modelled as an absent binding. -/
def _key_key_max_l : Option String := none

/-- Modelled from the spec: `BasisData.set_file` (the module
`aiida_basis/data/basis/basis.py` is absent from src; per the spec the base
record stores the exact byte content, from which the content hash is
derived). -/
def basis_data_set_file (node : PaoData) (content : String) : PaoData :=
  setAttr node "content" (.str content)

/-- Modelled from the spec: the `BasisData.element` setter (same absent
module; the spec requires a valid element symbol, validated against the
periodic table, stored on the record). -/
def element_set (node : PaoData) (symbol : String) : Except String PaoData :=
  if elementsTable.any (fun p => p.2 = symbol) then
    .ok (setAttr node "element" (.str symbol))
  else .error ("`" ++ symbol ++ "` is not a valid element")

/-- The `z_valence` setter (pao.py lines 200-210): rejects a negative value;
the `isinstance(value, int)` conjunct holds by typing here. -/
def z_valence_set (node : PaoData) (value : Int) : Except String PaoData :=
  if value < 0 then .error "z_valence is not a positive integer"
  else .ok (setAttr node _key_z_valence (.int value))

/-- The `r_cutoff` setter (pao.py lines 220-230): rejects a non-positive
value. -/
def r_cutoff_set (node : PaoData) (value : Dec10) : Except String PaoData :=
  if !value.isPos then .error "r_cutoff is not a positive float"
  else .ok (setAttr node _key_r_cutoff (.dec value))

/-- The `max_occ_n` setter (pao.py lines 240-250). -/
def max_occ_n_set (node : PaoData) (value : Int) : Except String PaoData :=
  if value < 0 then .error "max_occ_n is not a positive integer"
  else .ok (setAttr node _key_max_occ_n (.int value))

/-- The `num_pao` setter (pao.py lines 280-290). -/
def num_pao_set (node : PaoData) (value : Int) : Except String PaoData :=
  if value < 0 then .error "num_pao is not a positive integer"
  else .ok (setAttr node _key_num_pao (.int value))

/-- The `key_max_l` property getter (pao.py lines 252-258):
`self.get_attribute(self._key_key_max_l, None)` — the key name itself is an
undefined class attribute, so every access raises `AttributeError` before any
attribute is read. -/
def key_max_l_get (node : PaoData) : Except String (Option AttrVal) :=
  match _key_key_max_l with
  | none => .error "AttributeError: _key_key_max_l"
  | some k => .ok (getAttr node k)

/-- `PaoData.set_file` (pao.py lines 172-190): delegate to the base class,
then parse and assign the six fields in source order.  The `max_l` line
assigns a plain instance attribute (no such property exists), so the parsed
maximum angular momentum reaches neither a setter validation nor
`set_attribute`. -/
def PaoData.set_file (node : PaoData) (content : String) : Except String PaoData := do
  let node := basis_data_set_file node content
  let el ← parse_element content
  let node ← element_set node el
  let z ← parse_z_valence content
  let node ← z_valence_set node z
  let rc ← parse_r_cutoff content
  let node ← r_cutoff_set node rc
  let mon ← parse_max_occ_n content
  let node ← max_occ_n_set node mon
  let ml ← parse_max_l content
  let node := { node with max_l_obj := some ml }
  let np ← parse_num_pao content
  let node ← num_pao_set node np
  .ok node

/-- A PAO file text containing all six markers of the external grammar. -/
def paoContentAr : String :=
  "AtomSpecies 18\nvalence.electron 8.0\nradial.cutoff.pao 7.0\nmax.occupied.N 3\nmaxL.pao 2\nnum.pao 15\n"

/-! Scratch check: the full chain on a well-formed file. -/

example :
    (PaoData.set_file ⟨[], none⟩ paoContentAr).map (fun n =>
        (getAttr n "element", getAttr n _key_z_valence, getAttr n _key_max_occ_n,
         getAttr n _key_max_l, n.max_l_obj, getAttr n _key_num_pao)) =
      .ok (some (.str "Ar"), some (.int 8), some (.int 3), none, some 2, some (.int 15)) := by
  rfl


/-- A descriptor filesystem with every file absent. -/
def fsAbsent : String → FileState := fun _ => FileState.absent

/-- A descriptor filesystem with every file present but corrupt. -/
def fsCorrupt : String → FileState := fun _ => FileState.corrupt

/-- An install environment that performs nothing, for concrete instantiation. -/
def envStub : InstallEnv :=
  ⟨fsAbsent, fun _ => none, fun _ _ _ => .error "unused"⟩

/-- A basis constructor always yielding an argon record, for concrete
instantiation of the directory pipeline. -/
def constructAr : String → String → Except String ParsedBasis :=
  fun _ _ => .ok ⟨some "Ar"⟩

/-! ## Helper lemmas -/

/-- Success of the tuple loop means every tuple is a 4-tuple of integers. -/
theorem validateTuples_ok_shape :
    ∀ ocs : OrbitalConfigs, validateTuples ocs = .ok () →
      ∀ p ∈ ocs, p.2.length = 4 ∧ p.2.all PyVal.isInt = true
  | [], _, p, hp => absurd hp (List.not_mem_nil p)
  | (element, oc0) :: rest, h, p, hp => by
    rw [validateTuples] at h
    by_cases hlen : oc0.length = 4
    · rw [if_neg (fun hne => hne hlen)] at h
      by_cases hint : (oc0.any fun n => !n.isInt) = true
      · rw [if_pos hint] at h
        exact absurd h (by simp)
      · rw [if_neg hint] at h
        rcases List.mem_cons.mp hp with hp | hp
        · subst hp
          refine ⟨hlen, ?_⟩
          simp only [List.any_eq_true, Bool.not_eq_true', not_exists, not_and] at hint
          simp only [List.all_eq_true]
          intro x hx
          by_contra hfalse
          exact absurd (Bool.eq_false_iff.mpr hfalse) (by simpa using hint x hx)
        · exact validateTuples_ok_shape rest h p hp
    · rw [if_pos hlen] at h
      exact absurd h (by simp)

/-- A length failure of the tuple loop names a tuple of the mapping whose
length is wrong. -/
theorem validateTuples_error_length :
    ∀ ocs : OrbitalConfigs, ∀ el : String, ∀ oc : List PyVal,
      validateTuples ocs = .error (.invalidLength el oc) →
      (el, oc) ∈ ocs ∧ oc.length ≠ 4
  | [], el, oc, h => by simp [validateTuples] at h
  | (element, oc0) :: rest, el, oc, h => by
    rw [validateTuples] at h
    by_cases hlen : oc0.length = 4
    · rw [if_neg (fun hne => hne hlen)] at h
      by_cases hint : (oc0.any fun n => !n.isInt) = true
      · rw [if_pos hint] at h
        exact absurd h (by simp)
      · rw [if_neg hint] at h
        have := validateTuples_error_length rest el oc h
        exact ⟨List.mem_cons_of_mem _ this.1, this.2⟩
    · rw [if_pos hlen] at h
      simp only [Except.error.injEq, OCValidationError.invalidLength.injEq] at h
      obtain ⟨he, ho⟩ := h
      subst he; subst ho
      exact ⟨List.mem_cons_self _ _, hlen⟩

/-- A value failure of the tuple loop names a tuple of the mapping holding a
non-integer entry. -/
theorem validateTuples_error_values :
    ∀ ocs : OrbitalConfigs, ∀ el : String, ∀ oc : List PyVal,
      validateTuples ocs = .error (.invalidValues el oc) →
      (el, oc) ∈ ocs ∧ oc.any (fun n => !n.isInt) = true
  | [], el, oc, h => by simp [validateTuples] at h
  | (element, oc0) :: rest, el, oc, h => by
    rw [validateTuples] at h
    by_cases hlen : oc0.length = 4
    · rw [if_neg (fun hne => hne hlen)] at h
      by_cases hint : (oc0.any fun n => !n.isInt) = true
      · rw [if_pos hint] at h
        simp only [Except.error.injEq, OCValidationError.invalidValues.injEq] at h
        obtain ⟨he, ho⟩ := h
        subst he; subst ho
        exact ⟨List.mem_cons_self _ _, hint⟩
      · rw [if_neg hint] at h
        have := validateTuples_error_values rest el oc h
        exact ⟨List.mem_cons_of_mem _ this.1, this.2⟩
    · rw [if_pos hlen] at h
      exact absurd h (by simp)

/-- Reduction of `validate_orbital_configurations` past the two subset tests
when neither strict inclusion holds. -/
theorem validate_orbital_configurations_incomparable (elements : List String)
    (ocs : OrbitalConfigs)
    (h1 : lssub elements (ocs.map (fun p => p.1)) ≠ true)
    (h2 : lssub (ocs.map (fun p => p.1)) elements ≠ true) :
    validate_orbital_configurations elements ocs = validateTuples ocs := by
  rw [validate_orbital_configurations]
  rw [if_neg h1, if_neg h2]

/-- The two subset tests cannot succeed when validation succeeds or fails on
a tuple, so the subset branches and the value returned determine each other;
this extracts `validateTuples` behaviour out of the full validator. -/
theorem validate_orbital_configurations_cases (elements : List String) (ocs : OrbitalConfigs) :
    validate_orbital_configurations elements ocs =
        .error (.unsupportedElements (symmDiffL elements (ocs.map (fun p => p.1)))) ∨
      validate_orbital_configurations elements ocs =
        .error (.missingElements (symmDiffL elements (ocs.map (fun p => p.1)))) ∨
      validate_orbital_configurations elements ocs = validateTuples ocs := by
  rw [validate_orbital_configurations]
  by_cases h1 : lssub elements (ocs.map (fun p => p.1)) = true
  · rw [if_pos h1]; exact Or.inl rfl
  · rw [if_neg h1]
    by_cases h2 : lssub (ocs.map (fun p => p.1)) elements = true
    · rw [if_pos h2]; exact Or.inr (Or.inl rfl)
    · rw [if_neg h2]; exact Or.inr (Or.inr rfl)

/-! ## Claim theorems -/

/-- C2: the claim states that every mapping whose key set is not exactly the
element set of the collection is rejected with a `ValidationError`.  The code
only tests the two strict-subset orders, so two INCOMPARABLE sets — here
elements `{H}` against mapping keys `{He}` — pass both tests, and the
mismatched mapping is validated and stored, contradicting the docstring of
`validate_orbital_configurations` (the sets must "match exactly").  This
theorem evaluates the code at that failing input. -/
theorem orbital_configurations_incomparable_sets_accepted :
    set_orbital_configurations ["H"] [("He", [.int 1, .int 0, .int 0, .int 0])] =
        .ok [("He", [.int 1, .int 0, .int 0, .int 0])] ∧
      [("He", [PyVal.int 1, .int 0, .int 0, .int 0])].map Prod.fst ≠ (["H"] : List String) :=
  ⟨rfl, by decide⟩

/-- C3: the claim states that every successful `add_nodes` preserves pairwise
distinct elements.  The duplicate check compares each argument node against
the elements already in the set, never against the other argument nodes, so
adding two fresh nodes that share an element succeeds and
`super().add_nodes` attaches both: the persisted membership then holds two
records for element `H`.  This theorem evaluates the code at that failing
input. -/
theorem add_nodes_duplicate_element_within_call :
    (add_nodes ⟨true, "set", [], none⟩ [⟨1, "H", "aaaa"⟩, ⟨2, "H", "cccc"⟩]).map
        (fun s => s.groupNodes.map (fun b => b.element)) = .ok ["H", "H"] ∧
      ¬ (["H", "H"] : List String).Nodup :=
  ⟨rfl, by decide⟩

/-- C7: amended claim — the set operation stores exactly the validated
mapping, and a mapping passes the tuple validation only when every tuple has
exactly 4 entries, all Python ints; a wrong length or a non-integer entry is
rejected with an error naming the offending element and tuple.  (The
non-negativity requirement of the original claim is not checked: see the
counterexample.) -/
theorem set_orbital_configurations_tuple_validation (elements : List String) (ocs : OrbitalConfigs) :
    (∀ stored, set_orbital_configurations elements ocs = .ok stored →
      stored = ocs ∧ ∀ p ∈ ocs, p.2.length = 4 ∧ p.2.all PyVal.isInt = true) ∧
    (∀ el oc, set_orbital_configurations elements ocs = .error (.invalidLength el oc) →
      (el, oc) ∈ ocs ∧ oc.length ≠ 4) ∧
    (∀ el oc, set_orbital_configurations elements ocs = .error (.invalidValues el oc) →
      (el, oc) ∈ ocs ∧ oc.any (fun n => !n.isInt) = true) := by
  refine ⟨?_, ?_, ?_⟩
  · intro stored hok
    rw [set_orbital_configurations] at hok
    rcases validate_orbital_configurations_cases elements ocs with hv | hv | hv
    · rw [hv] at hok; exact absurd hok (by simp)
    · rw [hv] at hok; exact absurd hok (by simp)
    · rw [hv] at hok
      rcases ht : validateTuples ocs with e | u
      · rw [ht] at hok; exact absurd hok (by simp)
      · rw [ht] at hok
        simp only [Except.ok.injEq] at hok
        subst hok
        exact ⟨rfl, validateTuples_ok_shape ocs (by rw [ht])⟩
  · intro el oc herr
    rw [set_orbital_configurations] at herr
    rcases validate_orbital_configurations_cases elements ocs with hv | hv | hv
    · rw [hv] at herr; simp at herr
    · rw [hv] at herr; simp at herr
    · rw [hv] at herr
      rcases ht : validateTuples ocs with e | u
      · rw [ht] at herr
        simp only [Except.error.injEq] at herr
        subst herr
        exact validateTuples_error_length ocs el oc ht
      · rw [ht] at herr; exact absurd herr (by simp)
  · intro el oc herr
    rw [set_orbital_configurations] at herr
    rcases validate_orbital_configurations_cases elements ocs with hv | hv | hv
    · rw [hv] at herr; simp at herr
    · rw [hv] at herr; simp at herr
    · rw [hv] at herr
      rcases ht : validateTuples ocs with e | u
      · rw [ht] at herr
        simp only [Except.error.injEq] at herr
        subst herr
        exact validateTuples_error_values ocs el oc ht
      · rw [ht] at herr; exact absurd herr (by simp)

/-- C7 witness: the wrong-length conjunct of the validation theorem applied
at a concrete two-entry tuple. -/
theorem set_orbital_configurations_tuple_validation_witness :
    ("H", [PyVal.int 1, .int 0]) ∈ [("H", [PyVal.int 1, .int 0])] ∧
      [PyVal.int 1, PyVal.int 0].length ≠ 4 :=
  (set_orbital_configurations_tuple_validation ["H"] [("H", [PyVal.int 1, .int 0])]).2.1
    "H" [PyVal.int 1, .int 0] rfl

/-- C7 counterexample: the original claim requires the operation to fail on a
tuple holding a negative entry; the code never tests the sign, so the tuple
`(-1, 0, 0, 0)` is validated and stored. -/
theorem set_orbital_configurations_negative_entry_accepted :
    set_orbital_configurations ["H"] [("H", [.int (-1), .int 0, .int 0, .int 0])] =
      .ok [("H", [.int (-1), .int 0, .int 0, .int 0])] :=
  rfl

/-- Updating a dict under one key leaves other keys invisible to lookup. -/
theorem dictGet_dictSet_other {α : Type} (k k2 : String) (v : α) (h : k ≠ k2) :
    ∀ d : List (String × α), dictGet (dictSet d k v) k2 = dictGet d k2
  | [] => by simp [dictSet, dictGet, List.find?, h]
  | (k0, v0) :: d => by
    by_cases hk : k0 = k
    · subst hk
      rw [dictSet, if_pos rfl]
      simp [dictGet, List.find?, h]
    · rw [dictSet, if_neg hk]
      by_cases h2 : k0 = k2
      · simp [dictGet, List.find?, h2]
      · have ih := dictGet_dictSet_other k k2 v h d
        simpa [dictGet, List.find?, h2] using ih

/-- A key absent from every pair stays absent through the dict fold. -/
theorem dictGet_foldl_none {α : Type} (e : String) :
    ∀ (ps : List (String × α)) (acc : List (String × α)),
      dictGet acc e = none → (∀ p ∈ ps, p.1 ≠ e) →
      dictGet (ps.foldl (fun d p => dictSet d p.1 p.2) acc) e = none
  | [], acc, hacc, _ => hacc
  | p :: ps, acc, hacc, hps => by
    rw [List.foldl_cons]
    exact dictGet_foldl_none e ps (dictSet acc p.1 p.2)
      (by rw [dictGet_dictSet_other p.1 e p.2 (hps p (List.mem_cons_self p ps)) acc]; exact hacc)
      (fun q hq => hps q (List.mem_cons_of_mem _ hq))

/-- `get_basis` on an element held by no node of the collection raises the
`ValueError` naming that element. -/
theorem get_basis_absent (bs : StoredBasisSet) (e : String)
    (h : ∀ b ∈ bs.nodes, b.element ≠ e) :
    get_basis bs e =
      .error (.valueError
        ("basis set `" ++ bs.label ++ "` does not contain basis for element `" ++ e ++ "`")) := by
  have hc : dictGet (basesOf bs) e = none := by
    rw [basesOf, pyDict]
    refine dictGet_foldl_none e _ [] rfl ?_
    intro p hp
    obtain ⟨b, hb, rfl⟩ := List.mem_map.mp hp
    exact h b hb
  have hf : bs.nodes.filter (fun b => b.element = e) = [] := by
    rw [List.filter_eq_nil_iff]
    intro b hb
    simpa using h b hb
  rw [get_basis, hc, hf]

/-- Prepending resolvable elements keeps `get_bases` at the error produced by
the first missing element. -/
theorem get_bases_append_missing (bs : StoredBasisSet) (rest : List String) (e : String)
    (habs : ∀ b ∈ bs.nodes, b.element ≠ e) :
    ∀ pre : List String, (∀ x ∈ pre, ∃ b, get_basis bs x = .ok b) →
      get_bases bs (pre ++ e :: rest) =
        .error (.valueError
          ("basis set `" ++ bs.label ++ "` does not contain basis for element `" ++ e ++ "`"))
  | [], _ => by
    rw [List.nil_append, get_bases, get_basis_absent bs e habs]
  | x :: pre, hpre => by
    obtain ⟨b, hb⟩ := hpre x (List.mem_cons_self x pre)
    have ih := get_bases_append_missing bs rest e habs pre
      (fun q hq => hpre q (List.mem_cons_of_mem _ hq))
    rw [List.cons_append, get_bases, hb, ih]

/-- When every requested element resolves, `get_bases` returns the full
mapping in request order. -/
theorem get_bases_all_present (bs : StoredBasisSet) :
    ∀ elements : List String, (∀ x ∈ elements, ∃ b, get_basis bs x = .ok b) →
      ∃ m, get_bases bs elements = .ok m ∧ m.map Prod.fst = elements ∧
        ∀ p ∈ m, get_basis bs p.1 = .ok p.2
  | [], _ => ⟨[], rfl, rfl, by simp⟩
  | x :: xs, h => by
    obtain ⟨b, hb⟩ := h x (List.mem_cons_self x xs)
    obtain ⟨m, hm, hkeys, hall⟩ :=
      get_bases_all_present bs xs (fun q hq => h q (List.mem_cons_of_mem _ hq))
    refine ⟨(x, b) :: m, ?_, by simp [hkeys], ?_⟩
    · rw [get_bases, hb, hm]
    · intro p hp
      rcases List.mem_cons.mp hp with hp | hp
      · subst hp; exact hb
      · exact hall p hp

/-- C4: amended claim — when some requested element is absent, `lookupMany`
fails with the error naming the FIRST missing element in request order
(later missing elements are not listed: see the counterexample); when every
requested element is present it returns the full element-to-record
mapping. -/
theorem get_bases_first_missing_or_full_mapping (bs : StoredBasisSet)
    (pre rest : List String) (e : String)
    (hpre : ∀ x ∈ pre, ∃ b, get_basis bs x = .ok b)
    (habs : ∀ b ∈ bs.nodes, b.element ≠ e) :
    get_bases bs (pre ++ e :: rest) =
        .error (.valueError
          ("basis set `" ++ bs.label ++ "` does not contain basis for element `" ++ e ++ "`")) ∧
      ∀ elements : List String, (∀ x ∈ elements, ∃ b, get_basis bs x = .ok b) →
        ∃ m, get_bases bs elements = .ok m ∧ m.map Prod.fst = elements ∧
          ∀ p ∈ m, get_basis bs p.1 = .ok p.2 :=
  ⟨get_bases_append_missing bs rest e habs pre hpre, get_bases_all_present bs⟩

/-- C4 witness: the amended theorem applied to a one-record collection with
request `[H, X, Z]`, whose first missing element is `X`. -/
theorem get_bases_first_missing_witness :
    get_bases ⟨1, "set4", [⟨11, "H", "aaaa"⟩]⟩ (["H"] ++ "X" :: ["Z"]) =
      .error (.valueError "basis set `set4` does not contain basis for element `X`") :=
  (get_bases_first_missing_or_full_mapping ⟨1, "set4", [⟨11, "H", "aaaa"⟩]⟩ ["H"] ["Z"] "X"
    (fun x hx => by
      simp only [List.mem_singleton] at hx
      subst hx
      exact ⟨⟨11, "H", "aaaa"⟩, rfl⟩)
    (by decide)).1

/-- C4 counterexample: the claim requires the error to list EVERY missing
element; requesting `[X, Y]` from a collection holding only `H` produces the
error naming `X` alone — the message does not mention `Y`. -/
theorem get_bases_error_omits_later_missing :
    get_bases ⟨1, "set4", [⟨11, "H", "aaaa"⟩]⟩ ["X", "Y"] =
        .error (.valueError "basis set `set4` does not contain basis for element `X`") ∧
      strContains "basis set `set4` does not contain basis for element `X`" "Y" = false :=
  ⟨rfl, by decide⟩

/-- A failing verification is unaffected by a prefix of matching elements:
the loop walks past every element whose stored md5 equals the metadata md5. -/
theorem verify_loop_skips_matching (db : Db) (bs : StoredBasisSet)
    (tail : ConfigurationMetadata) (herr : ∃ e, (verify_loop db bs tail).2 = .error e) :
    ∀ pre : ConfigurationMetadata,
      (∀ p ∈ pre, ∃ b, get_basis bs p.1 = .ok b ∧ b.md5 = p.2.md5) →
      verify_loop db bs (pre ++ tail) = verify_loop db bs tail
  | [], _ => by rw [List.nil_append]
  | (e0, v0) :: pre, hpre => by
    obtain ⟨b0, hb0, hmd⟩ := hpre (e0, v0) (List.mem_cons_self _ _)
    have ih := verify_loop_skips_matching db bs tail herr pre
      (fun q hq => hpre q (List.mem_cons_of_mem _ hq))
    obtain ⟨err, he⟩ := herr
    rw [List.cons_append]
    simp only [verify_loop, hb0, hmd, ne_eq, not_true_eq_false, if_false, ih]
    rcases hvt : verify_loop db bs tail with ⟨db2, r⟩
    rw [hvt] at he
    simp only at he
    subst he
    rfl

/-- C1: amended claim — on the first metadata element whose stored content
hash differs from the metadata checksum, the verify loop deletes the
just-created collection from the store (the group entity only: the basis
records are untouched) and aborts with the critical message naming that
element and the METADATA checksum (the computed checksum is not part of the
message: see the counterexample); afterwards no group with the primary key of
the collection remains. -/
theorem verify_first_mismatch_deletes_group (db : Db) (bs : StoredBasisSet)
    (pre rest : ConfigurationMetadata) (element : String) (values : ElementMetadata)
    (basis : BasisNode)
    (hpre : ∀ p ∈ pre, ∃ b, get_basis bs p.1 = .ok b ∧ b.md5 = p.2.md5)
    (hget : get_basis bs element = .ok basis)
    (hmm : basis.md5 ≠ values.md5) :
    verify_loop db bs (pre ++ (element, values) :: rest) =
        (groupDelete db bs.pk,
         .error (.mdMismatch
           ("md5 of PAO for element " ++ element ++
            " does not match that of the metadata " ++ values.md5))) ∧
      (groupDelete db bs.pk).basisNodes = db.basisNodes ∧
      ∀ g ∈ (groupDelete db bs.pk).groups, g.pk ≠ bs.pk := by
  have hhead : verify_loop db bs ((element, values) :: rest) =
      (groupDelete db bs.pk,
       .error (.mdMismatch
         ("md5 of PAO for element " ++ element ++
          " does not match that of the metadata " ++ values.md5))) := by
    simp only [verify_loop, hget]
    rw [if_pos hmm]
  refine ⟨?_, rfl, ?_⟩
  · rw [verify_loop_skips_matching db bs _ ⟨_, by rw [hhead]⟩ pre hpre, hhead]
  · intro g hg
    have := List.of_mem_filter hg
    exact of_decide_eq_true this

/-- C1 witness: the amended theorem at a two-element configuration whose
first element matches and whose second has checksum `aaaa` stored against
`bbbb` in the metadata. -/
theorem verify_first_mismatch_deletes_group_witness :
    verify_loop
        ⟨[⟨7, "OpenMX/19/standard/soft", [⟨3, "H", "aaaa"⟩, ⟨4, "He", "cccc"⟩]⟩],
         [⟨3, "H", "aaaa"⟩, ⟨4, "He", "cccc"⟩]⟩
        ⟨7, "OpenMX/19/standard/soft", [⟨3, "H", "aaaa"⟩, ⟨4, "He", "cccc"⟩]⟩
        ([("He", ⟨"He.pao", "cccc", [], none, none⟩)] ++
          ("H", ⟨"H.pao", "bbbb", [], none, none⟩) :: []) =
      (groupDelete
        ⟨[⟨7, "OpenMX/19/standard/soft", [⟨3, "H", "aaaa"⟩, ⟨4, "He", "cccc"⟩]⟩],
         [⟨3, "H", "aaaa"⟩, ⟨4, "He", "cccc"⟩]⟩ 7,
       .error (.mdMismatch
         ("md5 of PAO for element " ++ "H" ++
          " does not match that of the metadata " ++ "bbbb"))) :=
  (verify_first_mismatch_deletes_group
    ⟨[⟨7, "OpenMX/19/standard/soft", [⟨3, "H", "aaaa"⟩, ⟨4, "He", "cccc"⟩]⟩],
     [⟨3, "H", "aaaa"⟩, ⟨4, "He", "cccc"⟩]⟩
    ⟨7, "OpenMX/19/standard/soft", [⟨3, "H", "aaaa"⟩, ⟨4, "He", "cccc"⟩]⟩
    [("He", ⟨"He.pao", "cccc", [], none, none⟩)] []
    "H" ⟨"H.pao", "bbbb", [], none, none⟩ ⟨3, "H", "aaaa"⟩
    (fun p hp => by
      simp only [List.mem_singleton] at hp
      subst hp
      exact ⟨⟨4, "He", "cccc"⟩, rfl, rfl⟩)
    rfl (by decide)).1

/-- C1 counterexample: the claim as stated requires the rollback to delete
the collection AND all of its records and the error to name BOTH checksums.
At a concrete mismatch (stored `aaaa` against metadata `bbbb`) the loop
deletes only the group — the basis record stays in the node table — and the
message contains the metadata checksum but not the computed one. -/
theorem verify_mismatch_message_lacks_computed_checksum :
    verify_loop ⟨[⟨7, "OpenMX/19/standard/soft", [⟨3, "H", "aaaa"⟩]⟩], [⟨3, "H", "aaaa"⟩]⟩
        ⟨7, "OpenMX/19/standard/soft", [⟨3, "H", "aaaa"⟩]⟩
        [("H", ⟨"H.pao", "bbbb", [], none, none⟩)] =
      (⟨[], [⟨3, "H", "aaaa"⟩]⟩,
       .error (.mdMismatch "md5 of PAO for element H does not match that of the metadata bbbb")) ∧
    strContains "md5 of PAO for element H does not match that of the metadata bbbb" "aaaa" =
        false ∧
    (⟨[], [⟨3, "H", "aaaa"⟩]⟩ : Db).basisNodes = [⟨3, "H", "aaaa"⟩] :=
  ⟨rfl, by decide, rfl⟩

/-- C5: amended claim — the install command validates the configuration key
against the enumerated valid set before any other work: for a key outside the
set it aborts with the validity error, having performed NO external effect
(no metadata load, no store query, no network fetch, no persistence) and
leaving the store unchanged.  The standalone `loadMetadata` operation,
however, does NOT check validity first — it goes straight to the descriptor
file access (see the counterexample), so the claim restricted to it fails. -/
theorem cmd_install_openmx_invalid_key_rejected_first (env : InstallEnv) (db : Db)
    (version protocol hardness : String)
    (hinv : valid_configurations.contains ⟨version, protocol, hardness⟩ = false) :
    cmd_install_openmx env db version protocol hardness =
      (db, [],
       .invalidConfiguration
         (version ++ " " ++ hardness ++ " " ++ protocol ++
          " is not a valid OpenMX basis set configuration")) := by
  rw [cmd_install_openmx]
  simp only [hinv, Bool.not_false, if_true]

/-- C5 witness: the rejection at the invalid key `("19", "standard",
"extreme")` of Scenario D, in an environment with an empty store. -/
theorem cmd_install_openmx_invalid_key_rejected_first_witness :
    cmd_install_openmx envStub ⟨[], []⟩ "19" "standard" "extreme" =
      (⟨[], []⟩, [],
       .invalidConfiguration "19 extreme standard is not a valid OpenMX basis set configuration") :=
  cmd_install_openmx_invalid_key_rejected_first envStub ⟨[], []⟩
    "19" "standard" "extreme" (by decide)

/-- C5 counterexample: the claim quantifies over EVERY resolver operation,
but `loadMetadata` (`get_configuration_metadata`) performs the bundled
descriptor access for the invalid key `("19", "standard", "extreme")` —
the operation issues a metadata load and fails with the file-not-found
error, not with a validity error. -/
theorem get_configuration_metadata_no_validity_gate :
    valid_configurations.contains ⟨"19", "standard", "extreme"⟩ = false ∧
    (get_configuration_metadata_traced fsAbsent ⟨"19", "standard", "extreme"⟩).1 =
        [.metadataLoad "19_standard_extreme.json"] ∧
    (get_configuration_metadata_traced fsAbsent ⟨"19", "standard", "extreme"⟩).2 =
        .error (.fileNotFoundError "Metadata JSON for OpenMX/19/standard/extreme could not be found") :=
  ⟨by decide, rfl, rfl⟩

/-- C8: amended claim — `loadMetadata` fails with the `FileNotFoundError`
wrapper exactly when the bundled descriptor is absent, with the distinct
`OSError` wrapper when the file is present but unreadable, and returns the
parsed mapping when it is present and well-formed; a present-but-corrupt file
raises the raw JSON decode error, which is caught by neither wrapper (it is
not the distinct IoError the original claim promises: see the
counterexample). -/
theorem get_configuration_metadata_cases (fs : String → FileState) (c : OpenmxConfiguration) :
    (fs (metadataFilename c) = .absent →
      get_configuration_metadata fs c =
        .error (.fileNotFoundError
          ("Metadata JSON for " ++ format_configuration_label c ++ " could not be found"))) ∧
    (fs (metadataFilename c) = .unreadable →
      get_configuration_metadata fs c =
        .error (.osError
          ("Error while opening the metadata file for " ++ format_configuration_label c))) ∧
    (fs (metadataFilename c) = .corrupt →
      get_configuration_metadata fs c = .error .jsonDecodeError) ∧
    (∀ m, fs (metadataFilename c) = .good m → get_configuration_metadata fs c = .ok m) := by
  refine ⟨?_, ?_, ?_, ?_⟩
  · intro h; rw [get_configuration_metadata, h]
  · intro h; rw [get_configuration_metadata, h]
  · intro h; rw [get_configuration_metadata, h]
  · intro m h; rw [get_configuration_metadata, h]

/-- C8 witness: the absent-file conjunct at a concrete configuration. -/
theorem get_configuration_metadata_cases_witness :
    get_configuration_metadata fsAbsent ⟨"19", "standard", "soft"⟩ =
      .error (.fileNotFoundError
        ("Metadata JSON for " ++ format_configuration_label ⟨"19", "standard", "soft"⟩ ++
         " could not be found")) :=
  (get_configuration_metadata_cases fsAbsent ⟨"19", "standard", "soft"⟩).1 rfl

/-- C8 counterexample: for a present-but-corrupt descriptor of the valid key
`("19", "standard", "soft")` the error is the unwrapped JSON decode error —
not the `OSError`-based IoError the claim requires for the corrupt case. -/
theorem get_configuration_metadata_corrupt_not_io_error :
    get_configuration_metadata fsCorrupt ⟨"19", "standard", "soft"⟩ =
        .error .jsonDecodeError ∧
      MetadataError.isIoError .jsonDecodeError = false :=
  ⟨rfl, rfl⟩

/-- C9: the five layout branches of the download-URL derivation, tested in
source order: hardness `hard` selects the `element_Hard` subpath, hardness
`soft` the `element_Soft` subpath, an open-core flag that is present and true
the `element_OC` subpath, present and false the plain repeated-element
subpath, and when neither flag is present the default
`base/version-segment/element/filename` layout applies last. -/
theorem download_url_five_branches (version uv element : String) (em : ElementMetadata)
    (huv : dictGet url_version version = some uv) :
    (em.hardness = some "hard" →
      download_url version element em =
        some (url_base ++ "/" ++ uv ++ "/" ++ element ++ "/" ++ element ++ "_Hard/" ++
          em.filename)) ∧
    (em.hardness ≠ some "hard" → em.hardness = some "soft" →
      download_url version element em =
        some (url_base ++ "/" ++ uv ++ "/" ++ element ++ "/" ++ element ++ "_Soft/" ++
          em.filename)) ∧
    (em.hardness ≠ some "hard" → em.hardness ≠ some "soft" → em.open_core = some true →
      download_url version element em =
        some (url_base ++ "/" ++ uv ++ "/" ++ element ++ "/" ++ element ++ "_OC/" ++
          em.filename)) ∧
    (em.hardness ≠ some "hard" → em.hardness ≠ some "soft" → em.open_core = some false →
      download_url version element em =
        some (url_base ++ "/" ++ uv ++ "/" ++ element ++ "/" ++ element ++ "/" ++
          em.filename)) ∧
    (em.hardness = none → em.open_core = none →
      download_url version element em =
        some (url_base ++ "/" ++ uv ++ "/" ++ element ++ "/" ++ em.filename)) := by
  refine ⟨?_, ?_, ?_, ?_, ?_⟩
  · intro h1
    simp only [download_url, huv]
    rw [if_pos h1]
  · intro h1 h2
    simp only [download_url, huv]
    rw [if_neg h1, if_pos h2]
  · intro h1 h2 h3
    simp only [download_url, huv]
    rw [if_neg h1, if_neg h2, if_pos h3]
  · intro h1 h2 h4
    simp only [download_url, huv]
    rw [if_neg h1, if_neg h2, if_neg (by rw [h4]; simp), if_pos h4]
  · intro hh ho
    simp only [download_url, huv]
    rw [if_neg (by rw [hh]; simp), if_neg (by rw [hh]; simp),
        if_neg (by rw [ho]; simp), if_neg (by rw [ho]; simp)]

/-- C9 witness: the hard branch for iron under the 2019 version segment. -/
theorem download_url_five_branches_witness :
    download_url "19" "Fe" ⟨"Fe8.0H-s2p2d1.pao", "ffff", [], some "hard", none⟩ =
      some (url_base ++ "/" ++ "vps_pao2019/" ++ "/" ++ "Fe" ++ "/" ++ "Fe" ++ "_Hard/" ++
        "Fe8.0H-s2p2d1.pao") :=
  (download_url_five_branches "19" "vps_pao2019/" "Fe"
    ⟨"Fe8.0H-s2p2d1.pao", "ffff", [], some "hard", none⟩ rfl).1 rfl

/-- A successful file loop means every entry it walked was a regular file. -/
theorem parseFilesLoop_ok_all_files (construct : String → String → Except String ParsedBasis) :
    ∀ (cs : List DirEntry) (bases : List ParsedBasis),
      parseFilesLoop construct cs = .ok bases → cs.all DirEntry.isFile = true
  | [], _, _ => by simp
  | DirEntry.subdir n es :: rest, bases, h => by
    rw [parseFilesLoop] at h
    exact absurd h (by simp)
  | DirEntry.file name content :: rest, bases, h => by
    rw [parseFilesLoop] at h
    rcases hc : construct name content with e | basis
    · simp only [hc] at h
      exact absurd h (by simp)
    · simp only [hc] at h
      rcases hel : basis.element with _ | el
      · simp only [hel] at h
        rcases hfe : filenameElement name with _ | el2
        · simp only [hfe] at h
          exact absurd h (by simp)
        · simp only [hfe] at h
          rcases hrec : parseFilesLoop construct rest with e2 | bs2
          · simp only [hrec] at h
            exact absurd h (by simp)
          · simp only [List.all_cons, DirEntry.isFile, Bool.true_and]
            exact parseFilesLoop_ok_all_files construct rest bs2 hrec
      · simp only [hel] at h
        rcases hrec : parseFilesLoop construct rest with e2 | bs2
        · simp only [hrec] at h
          exact absurd h (by simp)
        · simp only [List.all_cons, DirEntry.isFile, Bool.true_and]
          exact parseFilesLoop_ok_all_files construct rest bs2 hrec

/-- Success of the full pipeline implies success of the file loop. -/
theorem parse_files_ok_loop (construct : String → String → Except String ParsedBasis)
    (cs : List DirEntry) (bases : List ParsedBasis)
    (h : parse_files construct cs = .ok bases) :
    ∃ bs, parseFilesLoop construct cs = .ok bs := by
  rw [parse_files] at h
  rcases hl : parseFilesLoop construct cs with e | bs
  · rw [hl] at h
    exact absurd h (by simp)
  · exact ⟨bs, rfl⟩

/-- C10: the single-subdirectory descent — when the source directory holds
exactly one entry and it is a directory, the pipeline parses the files found
inside that subdirectory; for every other shape the listing is used as is,
and the pipeline succeeds only when every entry of the effective listing is a
regular file. -/
theorem parse_bases_directory_shape (construct : String → String → Except String ParsedBasis)
    (contents : List DirEntry) :
    (∀ name entries, contents = [DirEntry.subdir name entries] →
      parse_bases_from_directory construct contents = parse_files construct entries) ∧
    ((∀ name entries, contents ≠ [DirEntry.subdir name entries]) →
      parse_bases_from_directory construct contents = parse_files construct contents) ∧
    (∀ bases, parse_bases_from_directory construct contents = .ok bases →
      (validate_dirpath contents).all DirEntry.isFile = true) := by
  refine ⟨?_, ?_, ?_⟩
  · intro n es h
    subst h
    rfl
  · intro hne
    rw [parse_bases_from_directory]
    rcases contents with _ | ⟨e, rest⟩
    · rfl
    · rcases rest with _ | ⟨e2, rest2⟩
      · rcases e with _ | ⟨n, es⟩
        · rfl
        · exact absurd rfl (hne n es)
      · rcases e with _ | ⟨n, es⟩ <;> rfl
  · intro bases h
    rw [parse_bases_from_directory] at h
    obtain ⟨bs, hbs⟩ := parse_files_ok_loop construct _ bases h
    exact parseFilesLoop_ok_all_files construct _ bs hbs

/-- C10 witness: the descent conjunct at a directory holding exactly the
subdirectory `pao`. -/
theorem parse_bases_directory_shape_witness :
    parse_bases_from_directory constructAr
        [DirEntry.subdir "pao" [DirEntry.file "Ar.pao" "x"]] =
      parse_files constructAr [DirEntry.file "Ar.pao" "x"] :=
  (parse_bases_directory_shape constructAr
    [DirEntry.subdir "pao" [DirEntry.file "Ar.pao" "x"]]).1 "pao" [DirEntry.file "Ar.pao" "x"] rfl

/-- C6: the claim states that a successful parse populates, validates, stores
and makes retrievable all six descriptor fields.  On a file carrying all six
markers, `set_file` succeeds, but the maximum angular momentum is assigned to
a plain instance attribute: no `max_l` attribute is persisted, the value
bypasses every setter validation, and the `key_max_l` property accessor
raises `AttributeError` because it reads the undefined name
`_key_key_max_l` — while the other five fields are validated, stored and
retrievable.  This theorem evaluates the code at that failing input. -/
theorem pao_set_file_loses_max_l :
    (PaoData.set_file ⟨[], none⟩ paoContentAr).map (fun n => getAttr n _key_max_l) = .ok none ∧
    (PaoData.set_file ⟨[], none⟩ paoContentAr).map PaoData.max_l_obj = .ok (some 2) ∧
    (PaoData.set_file ⟨[], none⟩ paoContentAr).bind key_max_l_get =
        .error "AttributeError: _key_key_max_l" ∧
    (PaoData.set_file ⟨[], none⟩ paoContentAr).map (fun n =>
        (getAttr n "element", getAttr n _key_z_valence, getAttr n _key_r_cutoff,
         getAttr n _key_max_occ_n, getAttr n _key_num_pao)) =
      .ok (some (.str "Ar"), some (.int 8), some (.dec ⟨70, 1⟩), some (.int 3),
        some (.int 15)) :=
  ⟨rfl, rfl, rfl, rfl⟩
